import Mathlib

/-!
Verification of the `timed-locks` crate (famedly/timed-locks).

The crate wraps `tokio::sync::Mutex` and `tokio::sync::RwLock` in smart
pointers whose acquisition methods race the underlying lock against a
timer (`tokio::time::timeout`) and, on expiry, either panic (abort
channel) or return a typed error (error channel).

Shallow embedding conventions:
 - `std::time::Duration` is modelled as whole seconds plus a sub-second
   nanosecond part, as stored by the Rust type.
 - The single `.await` of `timeout(self.timeout, inner_acquire())` inside
   every acquisition method is modelled by passing the awaited result in
   as an argument of type `Except Elapsed guard`: the method body after
   the await is a pure function of that result, which is exactly what
   each Rust method is.
 - A `panic!` is modelled as a distinguished outcome constructor carrying
   the formatted panic message.
 - The guard types of `tokio::sync` are external to the crate and are
   modelled opaquely as wrappers around the protected value.
-/

namespace TimedLocks

/-- Models `std::time::Duration`: whole seconds plus a sub-second
nanosecond part (the Rust type stores `u64` seconds and `u32` nanoseconds
kept below 10^9 by its constructors). -/
structure Duration where
  secs : Nat
  nanos : Nat
deriving Repr, DecidableEq

/-- `Duration::from_secs(n)`. -/
def Duration.from_secs (n : Nat) : Duration :=
  ⟨n, 0⟩

/-- `Duration::from_millis(m)`: `m / 1000` whole seconds and the
remainder as nanoseconds. -/
def Duration.from_millis (m : Nat) : Duration :=
  ⟨m / 1000, (m % 1000) * 1000000⟩

/-- `Duration::as_secs`: the whole-second part; any fractional part is
truncated (the `nanos` field is ignored). -/
def Duration.as_secs (d : Duration) : Nat :=
  d.secs

/-- `lib.rs`: `pub const DEFAULT_TIMEOUT_DURATION: Duration =
Duration::from_secs(30);`. -/
def DEFAULT_TIMEOUT_DURATION : Duration :=
  Duration.from_secs 30

/-- Models `tokio::time::error::Elapsed`, the payload of the `Err` arm of
`tokio::time::timeout`. The crate always discards it (`Err(_)` /
`map_err(|_| ...)`); we give it a field for the wall-clock time measured
when the timer fired so that this discarding is observable. -/
structure Elapsed where
  elapsed : Duration
deriving Repr, DecidableEq

/-- Models `tokio::sync::TryLockError` (external to the crate) abstractly
by its display text. -/
structure TryLockError where
  msg : String
deriving Repr, DecidableEq

/-- Models `tokio::sync::MutexGuard<'_, T>` opaquely: a token borrowing
the protected value. -/
structure MutexGuard (T : Type) where
  value : T
deriving Repr, DecidableEq

/-- Models `tokio::sync::RwLockReadGuard<'_, T>` opaquely. -/
structure RwLockReadGuard (T : Type) where
  value : T
deriving Repr, DecidableEq

/-- Models `tokio::sync::RwLockWriteGuard<'_, T>` opaquely. -/
structure RwLockWriteGuard (T : Type) where
  value : T
deriving Repr, DecidableEq

/-- `lib.rs`: the `Error` enum of the crate. -/
inductive Error where
  | LockTimeout (secs : Nat)
  | ReadLockTimeout (secs : Nat)
  | WriteLockTimeout (secs : Nat)
  | TokioSyncTryLock (e : TryLockError)
deriving Repr, DecidableEq

/-- The format string "Timed out while waiting for `lock` after {0}
seconds." (the `#[error(...)]` attribute of `Error::LockTimeout`). -/
def lockTimeoutMessage (n : Nat) : String :=
  "Timed out while waiting for `lock` after " ++ toString n ++ " seconds."

/-- The format string "Timed out while waiting for `read` lock after {0}
seconds." (the `#[error(...)]` attribute of `Error::ReadLockTimeout`,
also the literal inside the `panic!` of `RwLock::read` — and, verbatim,
the literal inside the `panic!` of `Mutex::lock` in `mutex.rs`). -/
def readLockTimeoutMessage (n : Nat) : String :=
  "Timed out while waiting for `read` lock after " ++ toString n ++ " seconds."

/-- The format string "Timed out while waiting for `write` lock after {0}
seconds." (the `#[error(...)]` attribute of `Error::WriteLockTimeout`,
also the literal inside the `panic!` of `RwLock::write`). -/
def writeLockTimeoutMessage (n : Nat) : String :=
  "Timed out while waiting for `write` lock after " ++ toString n ++ " seconds."

/-- The `Display` implementation derived by `thiserror` from the
`#[error(...)]` attributes in `lib.rs`; `TokioSyncTryLock` is
`#[error(transparent)]`, displaying the wrapped error unchanged. -/
def Error.message : Error → String
  | .LockTimeout n => lockTimeoutMessage n
  | .ReadLockTimeout n => readLockTimeoutMessage n
  | .WriteLockTimeout n => writeLockTimeoutMessage n
  | .TokioSyncTryLock e => e.msg

/-- The `From<tokio::sync::TryLockError> for Error` conversion derived by
`thiserror` from the `#[from]` attribute on `Error::TokioSyncTryLock`. -/
def Error.from_try_lock_error (e : TryLockError) : Error :=
  .TokioSyncTryLock e

/-- Outcome of an abort-channel acquisition method: either the guard, or
a `panic!` of the calling task carrying the formatted message. -/
inductive LockOutcome (G : Type) where
  | guard (g : G)
  | panicked (msg : String)
deriving Repr, DecidableEq

/-- `mutex.rs`: the `Mutex<T>` smart pointer. `inner` models the owned
`tokio::sync::Mutex<T>` (identified with its protected value, the only
state the crate supplies to it); `timeout` is the timeout duration. -/
structure Mutex (T : Type) where
  inner : T
  timeout : Duration
deriving Repr, DecidableEq

/-- `Mutex::new`: wrapper around `value` with the default timeout. -/
def Mutex.new {T : Type} (value : T) : Mutex T :=
  ⟨value, DEFAULT_TIMEOUT_DURATION⟩

/-- `Mutex::new_with_timeout`: wrapper around `value` with the given
timeout, stored as is. -/
def Mutex.new_with_timeout {T : Type} (value : T) (timeout : Duration) : Mutex T :=
  ⟨value, timeout⟩

/-- `Mutex::lock`: matches on the awaited result of
`timeout(self.timeout, self.inner.lock())`; `Ok(guard)` yields the
guard, `Err(_)` panics with the (mislabelled, see `mutex.rs` line 42)
message naming a `read` lock, formatted with `self.timeout.as_secs()`. -/
def Mutex.lock {T : Type} (self : Mutex T) (res : Except Elapsed (MutexGuard T)) :
    LockOutcome (MutexGuard T) :=
  match res with
  | .ok guard => .guard guard
  | .error _ => .panicked (readLockTimeoutMessage self.timeout.as_secs)

/-- `Mutex::lock_err`: `timeout(self.timeout, self.inner.lock()).await`
mapped through `map_err(|_| Error::LockTimeout(self.timeout.as_secs()))`
and the `?` operator, then `Ok(guard)`. -/
def Mutex.lock_err {T : Type} (self : Mutex T) (res : Except Elapsed (MutexGuard T)) :
    Except Error (MutexGuard T) :=
  match res with
  | .ok guard => .ok guard
  | .error _ => .error (Error.LockTimeout self.timeout.as_secs)

/-- `impl Deref for Mutex<T>`: borrows the inner `tokio::sync::Mutex`
unchanged (all non-timed operations of the underlying lock are reached
through this). -/
def Mutex.deref {T : Type} (self : Mutex T) : T :=
  self.inner

/-- `impl Default for Mutex<T>` (requires `T: Default`):
`Self::new(T::default())`. -/
def Mutex.default_value (T : Type) [Inhabited T] : Mutex T :=
  Mutex.new (default : T)

/-- `impl From<T> for Mutex<T>`: `Self::new(value)`. -/
def Mutex.from_value {T : Type} (value : T) : Mutex T :=
  Mutex.new value

/-- `rwlock.rs`: the `RwLock<T>` smart pointer. -/
structure RwLock (T : Type) where
  inner : T
  timeout : Duration
deriving Repr, DecidableEq

/-- `RwLock::new`: wrapper around `value` with the default timeout. -/
def RwLock.new {T : Type} (value : T) : RwLock T :=
  ⟨value, DEFAULT_TIMEOUT_DURATION⟩

/-- `RwLock::new_with_timeout`: wrapper around `value` with the given
timeout, stored as is. -/
def RwLock.new_with_timeout {T : Type} (value : T) (timeout : Duration) : RwLock T :=
  ⟨value, timeout⟩

/-- `RwLock::read`: matches on the awaited result of
`timeout(self.timeout, self.inner.read())`; `Ok(read_guard)` yields the
guard, `Err(_)` panics with the `read` lock message formatted with
`self.timeout.as_secs()`. -/
def RwLock.read {T : Type} (self : RwLock T) (res : Except Elapsed (RwLockReadGuard T)) :
    LockOutcome (RwLockReadGuard T) :=
  match res with
  | .ok read_guard => .guard read_guard
  | .error _ => .panicked (readLockTimeoutMessage self.timeout.as_secs)

/-- `RwLock::read_err`: the awaited result mapped through
`map_err(|_| Error::ReadLockTimeout(self.timeout.as_secs()))` and `?`,
then `Ok(read_guard)`. -/
def RwLock.read_err {T : Type} (self : RwLock T) (res : Except Elapsed (RwLockReadGuard T)) :
    Except Error (RwLockReadGuard T) :=
  match res with
  | .ok read_guard => .ok read_guard
  | .error _ => .error (Error.ReadLockTimeout self.timeout.as_secs)

/-- `RwLock::write`: matches on the awaited result of
`timeout(self.timeout, self.inner.write())`; `Ok(write_guard)` yields
the guard, `Err(_)` panics with the `write` lock message formatted with
`self.timeout.as_secs()`. -/
def RwLock.write {T : Type} (self : RwLock T) (res : Except Elapsed (RwLockWriteGuard T)) :
    LockOutcome (RwLockWriteGuard T) :=
  match res with
  | .ok write_guard => .guard write_guard
  | .error _ => .panicked (writeLockTimeoutMessage self.timeout.as_secs)

/-- `RwLock::write_err`: the awaited result mapped through
`map_err(|_| Error::WriteLockTimeout(self.timeout.as_secs()))` and `?`,
then `Ok(write_guard)`. -/
def RwLock.write_err {T : Type} (self : RwLock T) (res : Except Elapsed (RwLockWriteGuard T)) :
    Except Error (RwLockWriteGuard T) :=
  match res with
  | .ok write_guard => .ok write_guard
  | .error _ => .error (Error.WriteLockTimeout self.timeout.as_secs)

/-- `impl Deref for RwLock<T>`: borrows the inner `tokio::sync::RwLock`
unchanged. -/
def RwLock.deref {T : Type} (self : RwLock T) : T :=
  self.inner

/-- `impl Default for RwLock<T>` (requires `T: Default`):
`Self::new(T::default())`. -/
def RwLock.default_value (T : Type) [Inhabited T] : RwLock T :=
  RwLock.new (default : T)

/-- `impl From<T> for RwLock<T>`: `Self::new(value)`. -/
def RwLock.from_value {T : Type} (value : T) : RwLock T :=
  RwLock.new value

/-- A caller reaching the underlying lock's non-timed `try_lock` /
`try_read` / `try_write` through `Deref` and converting its failure into
the crate's error type with `?` (which applies the derived
`From<tokio::sync::TryLockError> for Error`). -/
def try_result_surfaced {G : Type} (res : Except TryLockError G) : Except Error G :=
  match res with
  | .ok g => .ok g
  | .error e => .error (Error.from_try_lock_error e)

/-- One public acquisition call on a `Mutex<T>`, together with the
awaited result of its inner `timeout(...)` race. -/
inductive MutexCall (T : Type) where
  | lock (res : Except Elapsed (MutexGuard T))
  | lock_err (res : Except Elapsed (MutexGuard T))

/-- The observation a caller makes from one acquisition call on a
`Mutex<T>`. -/
inductive MutexObs (T : Type) where
  | guard (g : MutexGuard T)
  | panicked (msg : String)
  | ok (g : MutexGuard T)
  | err (e : Error)
deriving Repr, DecidableEq

/-- Dispatch one call on a `Mutex<T>`. All methods take `&self`, and the
`timeout` field has no interior mutability, so the wrapper value itself
is unchanged by any call. -/
def Mutex.call {T : Type} (self : Mutex T) : MutexCall T → MutexObs T
  | .lock res =>
    match self.lock res with
    | .guard g => .guard g
    | .panicked msg => .panicked msg
  | .lock_err res =>
    match self.lock_err res with
    | .ok g => .ok g
    | .error e => .err e

/-- Run a whole sequence of acquisition calls against one `Mutex<T>`
over its lifetime, collecting the observations. -/
def Mutex.run {T : Type} (self : Mutex T) : List (MutexCall T) → List (MutexObs T)
  | [] => []
  | c :: cs => self.call c :: self.run cs

/-- The observation reports no timeout seconds value other than `n`:
any `LockTimeout` error carries `n` and any panic message is the one
formatted with `n`. -/
def MutexObs.reportsOnly {T : Type} (n : Nat) : MutexObs T → Prop
  | .panicked msg => msg = readLockTimeoutMessage n
  | .err (Error.LockTimeout k) => k = n
  | _ => True

/-- One public acquisition call on a `RwLock<T>`, together with the
awaited result of its inner `timeout(...)` race. -/
inductive RwLockCall (T : Type) where
  | read (res : Except Elapsed (RwLockReadGuard T))
  | read_err (res : Except Elapsed (RwLockReadGuard T))
  | write (res : Except Elapsed (RwLockWriteGuard T))
  | write_err (res : Except Elapsed (RwLockWriteGuard T))

/-- The observation a caller makes from one acquisition call on a
`RwLock<T>`. -/
inductive RwLockObs (T : Type) where
  | read_guard (g : RwLockReadGuard T)
  | write_guard (g : RwLockWriteGuard T)
  | panicked (msg : String)
  | ok_read (g : RwLockReadGuard T)
  | ok_write (g : RwLockWriteGuard T)
  | err (e : Error)
deriving Repr, DecidableEq

/-- Dispatch one call on a `RwLock<T>`; as for `Mutex`, every method
takes `&self` and the wrapper value is unchanged by any call. -/
def RwLock.call {T : Type} (self : RwLock T) : RwLockCall T → RwLockObs T
  | .read res =>
    match self.read res with
    | .guard g => .read_guard g
    | .panicked msg => .panicked msg
  | .read_err res =>
    match self.read_err res with
    | .ok g => .ok_read g
    | .error e => .err e
  | .write res =>
    match self.write res with
    | .guard g => .write_guard g
    | .panicked msg => .panicked msg
  | .write_err res =>
    match self.write_err res with
    | .ok g => .ok_write g
    | .error e => .err e

/-- Run a whole sequence of acquisition calls against one `RwLock<T>`
over its lifetime, collecting the observations. -/
def RwLock.run {T : Type} (self : RwLock T) : List (RwLockCall T) → List (RwLockObs T)
  | [] => []
  | c :: cs => self.call c :: self.run cs

/-- The observation reports no timeout seconds value other than `n`:
any timeout error carries `n` and any panic message is formatted with
`n`. -/
def RwLockObs.reportsOnly {T : Type} (n : Nat) : RwLockObs T → Prop
  | .panicked msg => msg = readLockTimeoutMessage n ∨ msg = writeLockTimeoutMessage n
  | .err (Error.ReadLockTimeout k) => k = n
  | .err (Error.WriteLockTimeout k) => k = n
  | _ => True

/-- Any single call on a `Mutex` reports only the wrapper's own
configured seconds value. -/
theorem Mutex.call_reports_only_timeout_secs {T : Type} (m : Mutex T) (c : MutexCall T) :
    MutexObs.reportsOnly m.timeout.as_secs (m.call c) := by
  cases c with
  | lock res =>
    cases res with
    | ok g => trivial
    | error f => exact rfl
  | lock_err res =>
    cases res with
    | ok g => trivial
    | error f => exact rfl

/-- Every observation of a whole call trace on a `Mutex` reports only
the wrapper's own configured seconds value. -/
theorem Mutex.run_reports_only_timeout_secs {T : Type} (m : Mutex T) (calls : List (MutexCall T)) :
    ∀ obs ∈ m.run calls, MutexObs.reportsOnly m.timeout.as_secs obs := by
  induction calls with
  | nil => intro obs h; cases h
  | cons c cs ih =>
    intro obs h
    simp only [Mutex.run, List.mem_cons] at h
    rcases h with h | h
    · subst h; exact m.call_reports_only_timeout_secs c
    · exact ih obs h

/-- Any single call on a `RwLock` reports only the wrapper's own
configured seconds value. -/
theorem RwLock.rw_call_reports_only_timeout_secs {T : Type} (l : RwLock T) (c : RwLockCall T) :
    RwLockObs.reportsOnly l.timeout.as_secs (l.call c) := by
  cases c with
  | read res =>
    cases res with
    | ok g => trivial
    | error f => exact Or.inl rfl
  | read_err res =>
    cases res with
    | ok g => trivial
    | error f => exact rfl
  | write res =>
    cases res with
    | ok g => trivial
    | error f => exact Or.inr rfl
  | write_err res =>
    cases res with
    | ok g => trivial
    | error f => exact rfl

/-- Every observation of a whole call trace on a `RwLock` reports only
the wrapper's own configured seconds value. -/
theorem RwLock.rw_run_reports_only_timeout_secs {T : Type} (l : RwLock T) (calls : List (RwLockCall T)) :
    ∀ obs ∈ l.run calls, RwLockObs.reportsOnly l.timeout.as_secs obs := by
  induction calls with
  | nil => intro obs h; cases h
  | cons c cs ih =>
    intro obs h
    simp only [RwLock.run, List.mem_cons] at h
    rcases h with h | h
    · subst h; exact l.rw_call_reports_only_timeout_secs c
    · exact ih obs h

/-- Claim C1 (code bug): on timeout, `Mutex::lock` panics with the
message "Timed out while waiting for \x60read\x60 lock after {N}
seconds." — the operation name in the message is `read`, not `lock` as
the spec and the crate's own `Error::LockTimeout` display string say. -/
theorem mutex_lock_timeout_panic_mislabelled_as_read :
    (Mutex.new (0 : Nat)).lock (.error ⟨Duration.from_secs 30⟩)
      = .panicked "Timed out while waiting for `read` lock after 30 seconds." ∧
    "Timed out while waiting for `read` lock after 30 seconds." ≠ lockTimeoutMessage 30 ∧
    (Error.LockTimeout 30).message = "Timed out while waiting for `lock` after 30 seconds." := by
  refine ⟨rfl, ?_, rfl⟩
  decide

/-- Claim C2: for a wrapper with timeout `d`, each error-channel method
returns, on timeout, the typed error of its own kind carrying
`d.as_secs()` — `LockTimeout` for `Mutex::lock_err`, `ReadLockTimeout`
for `RwLock::read_err`, `WriteLockTimeout` for `RwLock::write_err` —
and, on success, the guard. -/
theorem err_channel_returns_typed_timeout_errors {T : Type} (v : T) (d : Duration)
    (e : Elapsed) (g : MutexGuard T) (rg : RwLockReadGuard T) (wg : RwLockWriteGuard T) :
    (Mutex.new_with_timeout v d).lock_err (.error e) = .error (.LockTimeout d.as_secs) ∧
    (Mutex.new_with_timeout v d).lock_err (.ok g) = .ok g ∧
    (RwLock.new_with_timeout v d).read_err (.error e) = .error (.ReadLockTimeout d.as_secs) ∧
    (RwLock.new_with_timeout v d).read_err (.ok rg) = .ok rg ∧
    (RwLock.new_with_timeout v d).write_err (.error e) = .error (.WriteLockTimeout d.as_secs) ∧
    (RwLock.new_with_timeout v d).write_err (.ok wg) = .ok wg :=
  ⟨rfl, rfl, rfl, rfl, rfl, rfl⟩

/-- Claim C3: for a `RwLock` with timeout `d`, `read` panics on timeout
with the `read` lock message and `write` with the `write` lock message,
both formatted with `d.as_secs()`. -/
theorem rwlock_abort_channel_panic_messages {T : Type} (v : T) (d : Duration) (e : Elapsed) :
    (RwLock.new_with_timeout v d).read (.error e)
      = .panicked ("Timed out while waiting for `read` lock after "
          ++ toString d.as_secs ++ " seconds.") ∧
    (RwLock.new_with_timeout v d).write (.error e)
      = .panicked ("Timed out while waiting for `write` lock after "
          ++ toString d.as_secs ++ " seconds.") :=
  ⟨rfl, rfl⟩

/-- Claim C4: the default timeout constant is exactly 30 seconds and the
one-argument constructors of both wrappers use it. -/
theorem default_timeout_is_thirty_seconds {T : Type} (v : T) :
    DEFAULT_TIMEOUT_DURATION = Duration.from_secs 30 ∧
    DEFAULT_TIMEOUT_DURATION.as_secs = 30 ∧
    (Mutex.new v).timeout = DEFAULT_TIMEOUT_DURATION ∧
    (RwLock.new v).timeout = DEFAULT_TIMEOUT_DURATION :=
  ⟨rfl, rfl, rfl, rfl⟩

/-- Claim C5, counterexample: construction with a zero duration is not
rejected — `new_with_timeout` yields a wrapper whose timeout is zero,
and acquisition on it then manifests an immediate timeout reporting 0
seconds. -/
theorem zero_timeout_accepted_at_construction :
    (Mutex.new_with_timeout (0 : Nat) (Duration.from_secs 0)).timeout = Duration.from_secs 0 ∧
    (RwLock.new_with_timeout (0 : Nat) (Duration.from_secs 0)).timeout = Duration.from_secs 0 ∧
    (Mutex.new_with_timeout (0 : Nat) (Duration.from_secs 0)).lock_err
        (.error ⟨Duration.from_secs 0⟩) = .error (.LockTimeout 0) :=
  ⟨rfl, rfl, rfl⟩

/-- Claim C5, amended: `new_with_timeout` accepts every duration,
including zero, without any construction-time validation, storing the
value and the duration unchanged. -/
theorem new_with_timeout_stores_any_duration {T : Type} (v : T) (d : Duration) :
    Mutex.new_with_timeout v d = ⟨v, d⟩ ∧ RwLock.new_with_timeout v d = ⟨v, d⟩ :=
  ⟨rfl, rfl⟩

/-- Claim C6: converting from a value equals constructing with the
default timeout, and default construction equals constructing from the
payload type's default value, for both wrappers. -/
theorem from_and_default_equal_new {T : Type} [Inhabited T] (v : T) :
    Mutex.from_value v = Mutex.new v ∧
    Mutex.default_value T = Mutex.new (default : T) ∧
    RwLock.from_value v = RwLock.new v ∧
    RwLock.default_value T = RwLock.new (default : T) :=
  ⟨rfl, rfl, rfl, rfl⟩

/-- Claim C7: every timed acquisition call has exactly the outcomes
guard-or-panic (abort channel) or guard-or-error (error channel), and no
error-channel method returns success on a timed-out race: on timeout it
returns its typed error. -/
theorem acquisition_outcome_trichotomy {T : Type} (m : Mutex T) (l : RwLock T)
    (res : Except Elapsed (MutexGuard T)) (rres : Except Elapsed (RwLockReadGuard T))
    (wres : Except Elapsed (RwLockWriteGuard T)) (e : Elapsed) :
    ((∃ g, m.lock res = .guard g) ∨ (∃ s, m.lock res = .panicked s)) ∧
    ((∃ g, m.lock_err res = .ok g) ∨ (∃ er, m.lock_err res = .error er)) ∧
    ((∃ g, l.read rres = .guard g) ∨ (∃ s, l.read rres = .panicked s)) ∧
    ((∃ g, l.read_err rres = .ok g) ∨ (∃ er, l.read_err rres = .error er)) ∧
    ((∃ g, l.write wres = .guard g) ∨ (∃ s, l.write wres = .panicked s)) ∧
    ((∃ g, l.write_err wres = .ok g) ∨ (∃ er, l.write_err wres = .error er)) ∧
    m.lock_err (.error e) = .error (.LockTimeout m.timeout.as_secs) ∧
    l.read_err (.error e) = .error (.ReadLockTimeout l.timeout.as_secs) ∧
    l.write_err (.error e) = .error (.WriteLockTimeout l.timeout.as_secs) := by
  refine ⟨?_, ?_, ?_, ?_, ?_, ?_, rfl, rfl, rfl⟩
  · cases res with
    | ok g => exact Or.inl ⟨g, rfl⟩
    | error f => exact Or.inr ⟨_, rfl⟩
  · cases res with
    | ok g => exact Or.inl ⟨g, rfl⟩
    | error f => exact Or.inr ⟨_, rfl⟩
  · cases rres with
    | ok g => exact Or.inl ⟨g, rfl⟩
    | error f => exact Or.inr ⟨_, rfl⟩
  · cases rres with
    | ok g => exact Or.inl ⟨g, rfl⟩
    | error f => exact Or.inr ⟨_, rfl⟩
  · cases wres with
    | ok g => exact Or.inl ⟨g, rfl⟩
    | error f => exact Or.inr ⟨_, rfl⟩
  · cases wres with
    | ok g => exact Or.inl ⟨g, rfl⟩
    | error f => exact Or.inr ⟨_, rfl⟩

/-- Claim C8: a failure of the underlying lock's non-timed try operation
is surfaced wrapped verbatim as `Error::TokioSyncTryLock` — the wrapped
error is carried unchanged, its display is transparent, and the result
is not any timeout kind. -/
theorem try_lock_failure_wrapped_verbatim {G : Type} (e : TryLockError) (g : G) :
    (try_result_surfaced (.error e) : Except Error G) = .error (Error.TokioSyncTryLock e) ∧
    (try_result_surfaced (.ok g) : Except Error G) = .ok g ∧
    (Error.from_try_lock_error e).message = e.msg ∧
    (∀ n, Error.from_try_lock_error e ≠ Error.LockTimeout n) ∧
    (∀ n, Error.from_try_lock_error e ≠ Error.ReadLockTimeout n) ∧
    (∀ n, Error.from_try_lock_error e ≠ Error.WriteLockTimeout n) := by
  refine ⟨rfl, rfl, rfl, ?_, ?_, ?_⟩ <;>
    intro n h <;> simp [Error.from_try_lock_error] at h

/-- Claim C9: the timeout chosen at construction is held as one value,
no operation (including `Deref`) changes it, and every acquisition in
any call trace over the wrapper's lifetime observes and reports that
same timeout. -/
theorem timeout_fixed_for_wrapper_lifetime {T : Type} (v : T) (d : Duration)
    (calls : List (MutexCall T)) (rcalls : List (RwLockCall T)) :
    (Mutex.new_with_timeout v d).timeout = d ∧
    (RwLock.new_with_timeout v d).timeout = d ∧
    Mutex.deref (Mutex.new_with_timeout v d) = v ∧
    RwLock.deref (RwLock.new_with_timeout v d) = v ∧
    (∀ obs ∈ (Mutex.new_with_timeout v d).run calls,
      MutexObs.reportsOnly d.as_secs obs) ∧
    (∀ obs ∈ (RwLock.new_with_timeout v d).run rcalls,
      RwLockObs.reportsOnly d.as_secs obs) :=
  ⟨rfl, rfl, rfl, rfl,
    Mutex.run_reports_only_timeout_secs (Mutex.new_with_timeout v d) calls,
    RwLock.rw_run_reports_only_timeout_secs (RwLock.new_with_timeout v d) rcalls⟩

/-- Witness for C9 at a concrete trace: a one-call trace that times out
on a mutex with a seven second timeout reports exactly seven seconds. -/
theorem timeout_fixed_for_wrapper_lifetime_witness :
    MutexObs.reportsOnly (Duration.from_secs 7).as_secs
      ((Mutex.new_with_timeout (0 : Nat) (Duration.from_secs 7)).call
        (.lock (.error ⟨Duration.from_secs 0⟩))) :=
  (timeout_fixed_for_wrapper_lifetime (0 : Nat) (Duration.from_secs 7)
      [MutexCall.lock (.error ⟨Duration.from_secs 0⟩)] []).2.2.2.2.1
    _ (by simp [Mutex.run])

/-- Claim C10: the seconds value in every timeout report is the
configured duration truncated to whole seconds — independent of the
measured elapsed time carried by the timer error, equal to the `secs`
field with the nanosecond part dropped; 500 ms reports 0 and 90.9 s
reports 90. -/
theorem reported_seconds_truncate_configured_duration {T : Type} (v : T) (d : Duration)
    (f1 f2 : Elapsed) :
    (Mutex.new_with_timeout v d).lock (.error f1) = (Mutex.new_with_timeout v d).lock (.error f2) ∧
    (Mutex.new_with_timeout v d).lock (.error f1) = .panicked (readLockTimeoutMessage d.secs) ∧
    (Mutex.new_with_timeout v d).lock_err (.error f1) = .error (.LockTimeout d.secs) ∧
    (RwLock.new_with_timeout v d).read_err (.error f1) = .error (.ReadLockTimeout d.secs) ∧
    (RwLock.new_with_timeout v d).write_err (.error f1) = .error (.WriteLockTimeout d.secs) ∧
    (RwLock.new_with_timeout v d).read (.error f1)
      = .panicked (readLockTimeoutMessage d.secs) ∧
    (RwLock.new_with_timeout v d).write (.error f1)
      = .panicked (writeLockTimeoutMessage d.secs) ∧
    Duration.as_secs d = d.secs ∧
    (Duration.from_millis 500).as_secs = 0 ∧
    (Duration.from_millis 90900).as_secs = 90 :=
  ⟨rfl, rfl, rfl, rfl, rfl, rfl, rfl, rfl, rfl, rfl⟩

end TimedLocks
